import Mathlib

/-!
Verification of the NITRR RAG assistant (agent loop and tool adapters)
against its natural-language specification.

The development shallowly embeds the Python source files
`cmd.py`, `faculty_info_tool.py`, `syllabus_tool.py`, `ordinance_tool.py`
as pure Lean functions.  External collaborators (the language model, the
sqlite store, the Chroma vector index, the filesystem) are modelled as
explicit environment records whose fields are oracles; a Python exception
raised by such a collaborator is an `Except.error`, and code without a
surrounding `try/except` propagates it monadically.
-/

namespace NITRR

/-- A single-quote character, used when reproducing Python `repr` output. -/
def sq : String := String.singleton (Char.ofNat 39)

/-- Python `str.lower()` (character-wise lower-casing; the inputs here are
ASCII department codes). -/
def pyLower (s : String) : String := String.mk (s.data.map Char.toLower)

/-- Python `str.strip()`: remove leading and trailing whitespace. -/
def pyStrip (s : String) : String :=
  String.mk (((s.data.dropWhile Char.isWhitespace).reverse.dropWhile
    Char.isWhitespace).reverse)

/- ## Message data model (langchain messages, as used by `cmd.py`) -/

/-- A tool-call request produced by the model: `id`, `name`, `args`
(the argument mapping, kept as its serialized form since the embedding
never inspects it structurally). -/
structure ToolCall where
  id : String
  name : String
  args : String
deriving DecidableEq, Repr

/-- A conversation message: `SystemMessage`, `HumanMessage`, `AIMessage`
(carrying its `tool_calls` list) or `ToolMessage` (carrying `tool_call_id`
and the tool name). -/
inductive Message where
  | system (content : String)
  | human (content : String)
  | ai (content : String) (tool_calls : List ToolCall)
  | tool (content : String) (tool_call_id : String) (name : String)
deriving DecidableEq, Repr

/-- The `tool_call_id` carried by a tool message, if the message is one. -/
def Message.toolCallId : Message → Option String
  | .tool _ id _ => some id
  | _ => none

/-- Whether a message is a tool-role message. -/
def Message.isToolMsg : Message → Bool
  | .tool _ _ _ => true
  | _ => false

/- ## Agent loop routing (`cmd.py`, `llm_to_tool_condition` and the graph) -/

/-- Embedding of `llm_to_tool_condition` (`cmd.py` lines 26-38).
An empty history or a non-assistant last message raises `ValueError`
(modelled as `Except.error`); otherwise the label is `continue` when the
last assistant message's `tool_calls` list is non-empty (Python truthiness)
and `end` when it is empty. -/
def llm_to_tool_condition (messages : List Message) : Except String String :=
  match messages.getLast? with
  | none => .error "len of messages is empty"
  | some last_message =>
    match last_message with
    | .ai _ tool_calls =>
      if tool_calls.isEmpty then .ok "end" else .ok "continue"
    | _ => .error "last message is not from ai"

/-- A destination of the conditional edge out of the `llm` node:
the `tools` node or the terminal `END`. -/
inductive GraphDest where
  | tools
  | END
deriving DecidableEq, Repr

/-- The edge mapping passed to `add_conditional_edges` in `cmd.py`:
`continue` routes to the `tools` node and `end` routes to `END`. -/
def llmConditionalEdgeMap (label : String) : Option GraphDest :=
  if label = "continue" then some GraphDest.tools
  else if label = "end" then some GraphDest.END
  else none

/-- The routing decision taken after the `llm` node: evaluate
`llm_to_tool_condition` on the state and follow the edge mapping. -/
def routeAfterLLM (messages : List Message) : Except String GraphDest :=
  match llm_to_tool_condition messages with
  | .error e => .error e
  | .ok label =>
    match llmConditionalEdgeMap label with
    | some d => .ok d
    | none => .error ("unknown edge label " ++ label)

/-- C1: the agent loop reaches DONE iff the latest assistant message has no
tool calls: for every non-empty history whose last message is an assistant
message, the routing after the `llm` node selects the terminal edge `END`
exactly when that message's tool-call list is empty, and the `tools` edge
otherwise. -/
theorem agent_loop_done_iff_no_tool_calls
    (msgs : List Message) (c : String) (tcs : List ToolCall)
    (h : msgs.getLast? = some (Message.ai c tcs)) :
    (routeAfterLLM msgs = .ok GraphDest.END ↔ tcs = []) ∧
    (routeAfterLLM msgs = .ok GraphDest.tools ↔ tcs ≠ []) := by
  unfold routeAfterLLM llm_to_tool_condition llmConditionalEdgeMap
  rw [h]
  cases tcs with
  | nil => simp
  | cons t ts => simp

/-- Witness for C1 at a concrete two-message history: after a tool-call-free
assistant reply the route is `END`, and after an assistant reply carrying one
tool call the route is `tools`. -/
theorem agent_loop_done_iff_no_tool_calls_witness :
    routeAfterLLM [Message.human "hi", Message.ai "hello" [] ] = .ok GraphDest.END ∧
    routeAfterLLM
      [Message.human "hi",
       Message.ai "" [⟨"call-1", "syllabus_tool", "args"⟩] ] = .ok GraphDest.tools := by
  constructor
  · exact (agent_loop_done_iff_no_tool_calls
      [Message.human "hi", Message.ai "hello" [] ] "hello" [] rfl).1.mpr rfl
  · exact (agent_loop_done_iff_no_tool_calls
      [Message.human "hi", Message.ai "" [⟨"call-1", "syllabus_tool", "args"⟩] ]
      "" [⟨"call-1", "syllabus_tool", "args"⟩] rfl).2.mpr (by simp)

/- ## Tool execution node (`cmd.py` line 92: `tool_node = ToolNode(tools=tools)`) -/

/-- A registry of tools: the registered names and, for each name, the tool
behaviour on a serialized argument mapping.  A tool invocation that raises an
unexpected failure is an `Except.error`. -/
structure ToolRegistry where
  names : List String
  run : String → String → Except String String

/-- Modelled from the spec: the body of langgraph's prebuilt `ToolNode`
(instantiated in `cmd.py` but implemented in library code absent from this
repository) executing one tool-call request.  Per the spec, the request's
name is resolved against the registry and the tool invoked with the provided
arguments; a request naming an unregistered tool, or an invocation that
raises, still yields exactly one tool message containing an error
description, with the request's `tool_call_id`. -/
def execToolCall (reg : ToolRegistry) (tc : ToolCall) : Message :=
  if tc.name ∈ reg.names then
    match reg.run tc.name tc.args with
    | .ok output => .tool output tc.id tc.name
    | .error e =>
      .tool ("Error: tool invocation raised: " ++ e) tc.id tc.name
  else
    .tool ("Error: " ++ tc.name ++ " is not a registered tool") tc.id tc.name

/-- Modelled from the spec: langgraph's prebuilt `ToolNode` applied to the
tool-call requests of the most recent assistant message, producing one tool
message per request, in request order. -/
def tool_node (reg : ToolRegistry) (calls : List ToolCall) : List Message :=
  calls.map (execToolCall reg)

/-- C2: for every tool-call request in one assistant message, the tool node
appends exactly one tool-role message, in request order, with matching
`tool_call_id`; an unregistered name or a raising invocation still yields
exactly one error-description tool message rather than aborting. -/
theorem tool_node_one_reply_per_request (reg : ToolRegistry) (calls : List ToolCall) :
    (tool_node reg calls).length = calls.length ∧
    (tool_node reg calls).map Message.toolCallId = calls.map (fun tc => some tc.id) ∧
    (tool_node reg calls).all Message.isToolMsg = true ∧
    (∀ tc : ToolCall, tc.name ∉ reg.names →
      execToolCall reg tc =
        .tool ("Error: " ++ tc.name ++ " is not a registered tool") tc.id tc.name) ∧
    (∀ tc : ToolCall, ∀ e : String, tc.name ∈ reg.names →
      reg.run tc.name tc.args = .error e →
      execToolCall reg tc =
        .tool ("Error: tool invocation raised: " ++ e) tc.id tc.name) := by
  have hshape : ∀ tc : ToolCall, ∃ content : String,
      execToolCall reg tc = .tool content tc.id tc.name := by
    intro tc
    unfold execToolCall
    by_cases h : tc.name ∈ reg.names
    · rw [if_pos h]
      cases reg.run tc.name tc.args with
      | ok output => exact ⟨output, rfl⟩
      | error e => exact ⟨"Error: tool invocation raised: " ++ e, rfl⟩
    · rw [if_neg h]
      exact ⟨"Error: " ++ tc.name ++ " is not a registered tool", rfl⟩
  refine ⟨by simp [tool_node], ?_, ?_, ?_, ?_⟩
  · unfold tool_node
    rw [List.map_map]
    apply List.map_congr_left
    intro tc _
    obtain ⟨content, hc⟩ := hshape tc
    simp [hc, Message.toolCallId]
  · unfold tool_node
    rw [List.all_eq_true]
    intro m hm
    rw [List.mem_map] at hm
    obtain ⟨tc, _, rfl⟩ := hm
    obtain ⟨content, hc⟩ := hshape tc
    simp [hc, Message.isToolMsg]
  · intro tc h
    unfold execToolCall
    rw [if_neg h]
  · intro tc e hmem hrun
    unfold execToolCall
    rw [if_pos hmem, hrun]

/-- A concrete registry holding the three registered tool names, with
`syllabus_tool` succeeding and every other tool raising. -/
def sampleRegistry : ToolRegistry where
  names := ["faculty_info_tool", "syllabus_tool", "ordinance_tool"]
  run := fun name _ =>
    if name = "syllabus_tool" then .ok "[]" else .error "boom"

/-- Witness for C2 at a concrete call list: two requests yield two tool
messages with matching ids, an unregistered name yields its error reply, and
a raising invocation yields its error reply. -/
theorem tool_node_one_reply_per_request_witness :
    (tool_node sampleRegistry
      [⟨"c1", "syllabus_tool", "a"⟩, ⟨"c2", "weather", "a"⟩]).length = 2 ∧
    execToolCall sampleRegistry ⟨"c2", "weather", "a"⟩ =
      .tool ("Error: " ++ "weather" ++ " is not a registered tool") "c2" "weather" ∧
    execToolCall sampleRegistry ⟨"c3", "ordinance_tool", "a"⟩ =
      .tool ("Error: tool invocation raised: " ++ "boom") "c3" "ordinance_tool" := by
  refine ⟨?_, ?_, ?_⟩
  · exact (tool_node_one_reply_per_request sampleRegistry
      [⟨"c1", "syllabus_tool", "a"⟩, ⟨"c2", "weather", "a"⟩]).1
  · exact (tool_node_one_reply_per_request sampleRegistry []).2.2.2.1
      ⟨"c2", "weather", "a"⟩ (by decide)
  · exact (tool_node_one_reply_per_request sampleRegistry []).2.2.2.2
      ⟨"c3", "ordinance_tool", "a"⟩ "boom" (by decide) (by rfl)

/- ## Faculty lookup tool (`faculty_info_tool.py`) -/

/-- One segment of a segmented `AIMessage.content` list: a dict part carries
an optional `text` entry (`part.get("text", "")`), a non-dict part is
rendered with `str(part)`. -/
inductive ContentPart where
  | dict (text : Option String)
  | nonDict (s : String)
deriving DecidableEq, Repr

/-- The text extracted from one content part by `_message_to_str`:
`part.get("text", "")` for dicts, `str(part)` otherwise. -/
def contentPartText : ContentPart → String
  | .dict t => t.getD ""
  | .nonDict s => s

/-- The possible shapes of `AIMessage.content` distinguished by
`_message_to_str`: a plain string, a list of parts, or any other type
(carried as its `str(...)` rendering). -/
inductive AIContent where
  | str (s : String)
  | list (parts : List ContentPart)
  | other (reprStr : String)
deriving DecidableEq, Repr

/-- The fixed default returned when the summarizer produced no usable text. -/
def cannotAnswerDefault : String :=
  "Cannot answer the given query with the available context"

/-- Embedding of `_message_to_str` (`faculty_info_tool.py` lines 95-112).
A string content is stripped; a list content is the concatenation of its
parts' texts, stripped; in the remaining branch the source assigns
`str(msg.content)` to the misspelled variable `respose`, so `response`
keeps its initial value `""`.  An empty `response` is replaced by the
default string (Python falsiness of the empty string). -/
def _message_to_str (content : AIContent) : String :=
  let response :=
    match content with
    | .str s => pyStrip s
    | .list parts => pyStrip (String.join (parts.map contentPartText))
    | .other _ => ""
  if response = "" then cannotAnswerDefault else response

/-- Outcome of `Path.read_text()`: the file contents, a raised
`FileNotFoundError`, or any other raised exception. -/
inductive FileOutcome where
  | content (s : String)
  | fileNotFound
  | otherExc (e : String)
deriving DecidableEq, Repr

/-- The external collaborators of the faculty tool: the filesystem read and
the summarizing language-model call (which may raise). -/
structure FacEnv where
  readFile : String → FileOutcome
  llm : String → String → Except String AIContent

/-- The department-scoped data file path, relative to the repository root
returned by `get_root_dir()`. -/
def facultyDataPath (departement : String) : String :=
  "data/faculty-data/" ++ departement ++ ".json"

/-- The `valid_departments` list of `faculty_info_tool.py` line 38. -/
def validDepartmentsFaculty : List String :=
  ["cse", "it", "electronics", "electrical", "mechanical",
   "meta", "chemical", "civil", "biotech", "biomed"]

/-- Python `repr` of a list of strings, as interpolated into f-strings. -/
def pyStrListRepr (l : List String) : String :=
  "[" ++ String.intercalate ", " (l.map (fun s => sq ++ s ++ sq)) ++ "]"

/-- The faculty tool's department validation error string. -/
def facultyDeptErrorMsg : String :=
  "department must be one of " ++ pyStrListRepr validDepartmentsFaculty

/-- The system prompt of the faculty summarization call (whitespace of the
Python triple-quoted literal normalized to single newlines; this text is
passed opaquely to the model and inspected by no claim). -/
def facultySystemPrompt : String :=
  "You are an academic assistant for National Institute of Technology Raipur.\n" ++
  "Your job is to answer the user" ++ sq ++ "s query using *only* the provided context.\n" ++
  "### 1. Context & Domain\n" ++
  "The user" ++ sq ++ "s query is about faculty at NIT Raipur.\n" ++
  "The context provided to you is factual data retrieved from the institute" ++ sq ++
  "s database (e.g., names, departments, designations, office numbers, emails).\n" ++
  "### 2. Core Rules for Answering\n" ++
  "* **Strictly Factual:** You MUST base your entire answer *only* on the provided context.\n" ++
  "* **DO NOT** add, infer, or assume any information not explicitly stated in the context.\n" ++
  "* **Handle Missing Information:** If the context does not contain the information needed " ++
  "to answer the query, you MUST state: \"That information is not available in the faculty records.\"\n" ++
  "* **No Hallucination:** It is better to state that the information is unavailable than to " ++
  "provide an incorrect or assumed answer.\n" ++
  "### 3. Style Guide\n" ++
  "* **Tone:** Maintain a formal, professional, and helpful tone.\n" ++
  "* **Format:** If the context provides a list (e.g., multiple faculty members), format your " ++
  "answer as a bulleted list for clarity.\n" ++
  "* **Relevance:** Be concise and keep the answer strictly relevant to the user" ++ sq ++ "s query."

/-- The user-role content of the summarization call
(`faculty_info_tool.py` line 83). -/
def facultyUserContent (faculty_data_string query : String) : String :=
  "Based on the following faculty data, answer the given query:\nContext:\n" ++
  faculty_data_string ++ "\n\nQuery:\n" ++ query

/-- The body of `faculty_info_tool` after department validation: load the
department file (both exception branches are caught and returned as
strings), invoke the summarizer inside `try/except`, and convert its
message to a string.  The second component records whether the file read
was attempted. -/
def faculty_fetch_and_answer (env : FacEnv) (department departement query : String) :
    (Except String String) × Bool :=
  match env.readFile (facultyDataPath departement) with
  | .fileNotFound =>
    (.ok ("No data file found for department " ++ departement), true)
  | .otherExc e =>
    (.ok ("unknown exception occurred: " ++ e ++
      ". cannot fetch data file for department " ++ department), true)
  | .content faculty_data_string =>
    match env.llm facultySystemPrompt (facultyUserContent faculty_data_string query) with
    | .error e =>
      (.ok ("unknown exception occurred while querying llm to answer the query: " ++ e), true)
    | .ok ai_message => (.ok (_message_to_str ai_message), true)

/-- Embedding of `faculty_info_tool` (`faculty_info_tool.py` lines 7-92):
lower-case the department, validate membership, then fetch and answer.
The second component records whether the data file was accessed. -/
def faculty_info_tool (env : FacEnv) (department query : String) :
    (Except String String) × Bool :=
  let departement := pyLower department
  if departement ∉ validDepartmentsFaculty then
    (.ok facultyDeptErrorMsg, false)
  else
    faculty_fetch_and_answer env department departement query

/-- A faculty environment whose file read and summarizer both succeed. -/
def sampleFacEnv : FacEnv where
  readFile := fun _ => .content "faculty data"
  llm := fun _ _ => .ok (.str "Dr. X is the HOD")

/-- C5: for every department whose lower-cased form is not in the valid set,
the faculty tool returns the string listing the valid values (not an
exception) and performs no file access. -/
theorem faculty_invalid_department_no_file_access
    (env : FacEnv) (department query : String)
    (h : pyLower department ∉ validDepartmentsFaculty) :
    faculty_info_tool env department query = (.ok facultyDeptErrorMsg, false) := by
  simp only [faculty_info_tool]
  rw [if_pos h]

/-- Witness for C5 at the concrete department `math`. -/
theorem faculty_invalid_department_no_file_access_witness :
    pyLower "math" ∉ validDepartmentsFaculty ∧
    faculty_info_tool sampleFacEnv "math" "Who is the HOD?" =
      (.ok facultyDeptErrorMsg, false) :=
  ⟨by decide,
   faculty_invalid_department_no_file_access sampleFacEnv "math" "Who is the HOD?"
     (by decide)⟩

/- ## Syllabus lookup tool (`syllabus_tool.py`) -/

/-- The nested unit record (source class `Unit`; renamed because Lean
reserves `Unit`). -/
structure SubjectUnit where
  unit_number : Int
  unit_name : String
  topics : List String
deriving DecidableEq, Repr

/-- A subject record as returned by the tool (`Subject` pydantic model). -/
structure Subject where
  name : String
  semester : Int
  department : String
  credits : String
  status : String
  code : String
  pre_requisites : List String
  units : List SubjectUnit
  course_material : List String
deriving DecidableEq, Repr

/-- One row of the `subjects` table.  The nested columns are stored as JSON
text and decoded by `json.loads` (external library); they are carried here
in already-decoded form, with the decode modelled as the identity. -/
structure SubjectRow where
  id : Int
  name : String
  semester : Int
  department : String
  credits : String
  status : String
  code : String
  pre_requisites : List String
  units : List SubjectUnit
  course_material : List String
deriving DecidableEq, Repr

/-- Embedding of `_convert_row_to_subject` (`syllabus_tool.py` lines
105-120): unpack a row, dropping its `id`, decoding the nested columns. -/
def _convert_row_to_subject (row : SubjectRow) : Subject :=
  { name := row.name
    semester := row.semester
    department := row.department
    credits := row.credits
    status := row.status
    code := row.code
    pre_requisites := row.pre_requisites
    units := row.units
    course_material := row.course_material }

/-- The `_valid_departments` Literal of `syllabus_tool.py` lines 16-19
(its `__args__` tuple as a list). -/
def validDepartmentsSyllabus : List String :=
  ["cse", "it", "electronics", "electrical", "mechanical",
   "meta", "civil", "chemical", "biotech", "biomed", "mining"]

/-- The Python `repr` of the `_valid_departments` Literal type, as
interpolated into the validation error f-string. -/
def pyLiteralRepr : String :=
  "typing.Literal[" ++
    String.intercalate ", " (validDepartmentsSyllabus.map (fun s => sq ++ s ++ sq)) ++ "]"

/-- The syllabus tool's department validation error string. -/
def syllabusDeptErrorMsg : String :=
  "department should be one of " ++ pyLiteralRepr

/-- The syllabus tool's semester validation error string. -/
def semesterErrorMsg : String := "semester should be between 1 and 8 inclusive"

/-- The syllabus tool's missing-database error string. -/
def dbNotFoundMsg : String := "database not found. cannot retrieve syllabus"

/-- Escaping of one character by `json.dumps` (external library, modelled on
its default ASCII output for the characters appearing in the data). -/
def jsonEscapeChar (c : Char) : String :=
  if c = '\\' then "\\\\"
  else if c = '\"' then "\\\""
  else if c = '\n' then "\\n"
  else if c = '\t' then "\\t"
  else if c = '\r' then "\\r"
  else String.singleton c

/-- A JSON string literal. -/
def jsonString (s : String) : String :=
  "\"" ++ String.join (s.data.map jsonEscapeChar) ++ "\""

/-- A JSON array of strings, with the `", "` item separator of
`json.dumps`. -/
def jsonOfStringList (l : List String) : String :=
  "[" ++ String.intercalate ", " (l.map jsonString) ++ "]"

/-- The `json.dumps` rendering of one dumped `Unit` model. -/
def jsonOfUnit (u : SubjectUnit) : String :=
  "\x7b\"unit_number\": " ++ toString u.unit_number ++
  ", \"unit_name\": " ++ jsonString u.unit_name ++
  ", \"topics\": " ++ jsonOfStringList u.topics ++ "\x7d"

/-- The `json.dumps` rendering of one dumped `Subject` model
(`model_dump` preserves field declaration order). -/
def jsonOfSubject (s : Subject) : String :=
  "\x7b\"name\": " ++ jsonString s.name ++
  ", \"semester\": " ++ toString s.semester ++
  ", \"department\": " ++ jsonString s.department ++
  ", \"credits\": " ++ jsonString s.credits ++
  ", \"status\": " ++ jsonString s.status ++
  ", \"code\": " ++ jsonString s.code ++
  ", \"pre_requisites\": " ++ jsonOfStringList s.pre_requisites ++
  ", \"units\": " ++ ("[" ++ String.intercalate ", " (s.units.map jsonOfUnit) ++ "]") ++
  ", \"course_material\": " ++ jsonOfStringList s.course_material ++ "\x7d"

/-- The `json.dumps` rendering of the dumped subject list
(`json.dumps([]) = "[]"`). -/
def jsonOfSubjects (l : List Subject) : String :=
  "[" ++ String.intercalate ", " (l.map jsonOfSubject) ++ "]"

/-- Python truthiness of the optional `semester` argument: `None` and `0`
are falsy, every other integer truthy. -/
def semesterTruthy : Option Int → Bool
  | none => false
  | some n => n != 0

/-- The condition of `syllabus_tool`'s semester validation,
`if semester and (semester <= 0 or semester > 8)` (`syllabus_tool.py`
line 71): Python only range-checks a truthy semester. -/
def semesterInvalid : Option Int → Bool
  | none => false
  | some n => n != 0 && (decide (n ≤ 0) || decide (n > 8))

/-- The structured record store: whether the sqlite file exists and the
contents of its `subjects` table. -/
structure SyllabusEnv where
  dbExists : Bool
  rows : List SubjectRow

/-- Embedding of `syllabus_tool` (`syllabus_tool.py` lines 33-102):
validate the department by exact membership, range-check a truthy
semester, check the database file, then run the parameterized equality
query (`WHERE department=?`, plus `AND semester=?` when the semester is
truthy), convert each row and serialize.  The second component records
whether a store query was issued (equivalently, a connection opened). -/
def syllabus_tool (env : SyllabusEnv) (department : String) (semester : Option Int) :
    String × Bool :=
  if department ∉ validDepartmentsSyllabus then
    (syllabusDeptErrorMsg, false)
  else if semesterInvalid semester then
    (semesterErrorMsg, false)
  else if !env.dbExists then
    (dbNotFoundMsg, false)
  else
    let rows := env.rows.filter (fun r =>
      r.department == department &&
      (if semesterTruthy semester then r.semester == semester.getD 0 else true))
    (jsonOfSubjects (rows.map _convert_row_to_subject), true)

/-- A concrete `subjects` row. -/
def sampleRow1 : SubjectRow :=
  { id := 1, name := "Operating Systems", semester := 3, department := "cse",
    credits := "4", status := "active", code := "CS301",
    pre_requisites := ["Data Structures"],
    units := [{ unit_number := 1, unit_name := "Processes", topics := ["Scheduling"] }],
    course_material := ["Book A"] }

/-- A second concrete row of another semester. -/
def sampleRow2 : SubjectRow :=
  { id := 2, name := "Databases", semester := 5, department := "cse",
    credits := "3", status := "active", code := "CS502",
    pre_requisites := [], units := [], course_material := [] }

/-- A third concrete row of another department. -/
def sampleRow3 : SubjectRow :=
  { id := 3, name := "Networks", semester := 3, department := "it",
    credits := "3", status := "active", code := "IT303",
    pre_requisites := [], units := [], course_material := [] }

/-- A concrete store with the database present. -/
def sampleSyllabusEnv : SyllabusEnv where
  dbExists := true
  rows := [sampleRow1, sampleRow2, sampleRow3]

/-- Counterexample to C3 as stated: `semester = 0` lies outside 1-8, yet
`if semester and ...` skips validation for the falsy `0`, so the tool
queries the store (treating the semester as absent) instead of returning
the semester validation error. -/
theorem syllabus_semester_zero_counterexample :
    ¬ (1 ≤ (0 : Int) ∧ (0 : Int) ≤ 8) ∧
    (syllabus_tool sampleSyllabusEnv "cse" (some 0)).2 = true ∧
    (syllabus_tool sampleSyllabusEnv "cse" (some 0)).1 ≠ semesterErrorMsg := by
  refine ⟨by decide, by decide, by decide⟩

/-- C3 amended: for every syllabus call whose semester argument is a
NONZERO integer outside 1-8, the tool returns a validation error string
(the semester error, or the department error when the department is also
invalid) and issues no store query; `semester = 0` is instead treated as
if the semester were omitted. -/
theorem syllabus_out_of_range_semester_no_query
    (env : SyllabusEnv) (department : String) (n : Int)
    (hn : n ≠ 0) (hout : n ≤ 0 ∨ 8 < n) :
    (syllabus_tool env department (some n)).2 = false ∧
    ((syllabus_tool env department (some n)).1 = syllabusDeptErrorMsg ∨
     (syllabus_tool env department (some n)).1 = semesterErrorMsg) := by
  have hinv : semesterInvalid (some n) = true := by
    simp only [semesterInvalid, Bool.and_eq_true, bne_iff_ne, ne_eq, Bool.or_eq_true,
      decide_eq_true_eq]
    exact ⟨hn, hout⟩
  by_cases hd : department ∈ validDepartmentsSyllabus
  · simp [syllabus_tool, hd, hinv]
  · simp [syllabus_tool, hd]

/-- Witness for the amended C3 at the concrete call
`syllabus_tool("cse", 9)`. -/
theorem syllabus_out_of_range_semester_no_query_witness :
    (9 : Int) ≠ 0 ∧ ((9 : Int) ≤ 0 ∨ (8 : Int) < 9) ∧
    (syllabus_tool sampleSyllabusEnv "cse" (some 9)).2 = false ∧
    ((syllabus_tool sampleSyllabusEnv "cse" (some 9)).1 = syllabusDeptErrorMsg ∨
     (syllabus_tool sampleSyllabusEnv "cse" (some 9)).1 = semesterErrorMsg) :=
  ⟨by decide, by decide,
   syllabus_out_of_range_semester_no_query sampleSyllabusEnv "cse" 9
     (by decide) (by decide)⟩

/-- C6: for a valid department and a semester in 1-8 (with the database
present) the tool returns the serialization of exactly the rows matching
both equality filters, every element of which carries that department and
semester; with the semester omitted it returns the rows matching the
department filter alone; and an empty match serializes to `"[]"`.  The
result is the serialized records directly (`jsonOfSubjects` of the store
rows; no language-model call appears in `syllabus_tool`). -/
theorem syllabus_valid_query_returns_matching_json
    (env : SyllabusEnv) (d : String) (s : Int)
    (hd : d ∈ validDepartmentsSyllabus) (hs1 : 1 ≤ s) (hs8 : s ≤ 8)
    (hdb : env.dbExists = true) :
    (syllabus_tool env d (some s)).1 =
      jsonOfSubjects ((env.rows.filter
        (fun r => r.department == d && r.semester == s)).map _convert_row_to_subject) ∧
    (∀ subj ∈ (env.rows.filter
        (fun r => r.department == d && r.semester == s)).map _convert_row_to_subject,
      subj.department = d ∧ subj.semester = s) ∧
    (syllabus_tool env d none).1 =
      jsonOfSubjects ((env.rows.filter
        (fun r => r.department == d)).map _convert_row_to_subject) ∧
    (env.rows.filter (fun r => r.department == d && r.semester == s) = [] →
      (syllabus_tool env d (some s)).1 = "[]") := by
  have hsem : semesterInvalid (some s) = false := by
    simp only [semesterInvalid, Bool.and_eq_false_iff, Bool.or_eq_false_iff,
      decide_eq_false_iff_not, not_le, not_lt]
    right
    constructor <;> omega
  have htr : semesterTruthy (some s) = true := by
    simp only [semesterTruthy, bne_iff_ne, ne_eq]
    omega
  have hfirst : (syllabus_tool env d (some s)).1 =
      jsonOfSubjects ((env.rows.filter
        (fun r => r.department == d && r.semester == s)).map _convert_row_to_subject) := by
    simp [syllabus_tool, hd, hsem, hdb, htr]
  refine ⟨hfirst, ?_, ?_, ?_⟩
  · intro subj hsub
    rw [List.mem_map] at hsub
    obtain ⟨r, hr, rfl⟩ := hsub
    rw [List.mem_filter] at hr
    have hpred := hr.2
    simp only [Bool.and_eq_true, beq_iff_eq] at hpred
    exact ⟨hpred.1, hpred.2⟩
  · simp [syllabus_tool, hd, hdb, semesterInvalid, semesterTruthy]
  · intro hempty
    rw [hfirst, hempty]
    rfl

/-- Witness for C6 at the concrete store `sampleSyllabusEnv` with
`department = "cse"` and `semester = 3`. -/
theorem syllabus_valid_query_returns_matching_json_witness :
    (syllabus_tool sampleSyllabusEnv "cse" (some 3)).1 =
      jsonOfSubjects ((sampleSyllabusEnv.rows.filter
        (fun r => r.department == "cse" && r.semester == 3)).map
          _convert_row_to_subject) ∧
    (syllabus_tool sampleSyllabusEnv "cse" none).1 =
      jsonOfSubjects ((sampleSyllabusEnv.rows.filter
        (fun r => r.department == "cse")).map _convert_row_to_subject) :=
  ⟨(syllabus_valid_query_returns_matching_json sampleSyllabusEnv "cse" 3
      (by decide) (by decide) (by decide) rfl).1,
   (syllabus_valid_query_returns_matching_json sampleSyllabusEnv "cse" 3
      (by decide) (by decide) (by decide) rfl).2.2.1⟩

/-- C8: the two valid-department sets differ exactly by `mining` (present
only in the syllabus set); faculty validation is case-insensitive (any
string whose lower-cased form is in the faculty set passes validation and
proceeds to the fetch-and-answer body, so the validation error is not
returned), while syllabus validation is case-sensitive exact matching
(any string not literally among its 11 codes gets the validation error). -/
theorem department_validation_asymmetry :
    (∀ d : String, d ∈ validDepartmentsSyllabus ↔
      (d ∈ validDepartmentsFaculty ∨ d = "mining")) ∧
    (∀ (env : FacEnv) (d q : String), pyLower d ∈ validDepartmentsFaculty →
      faculty_info_tool env d q = faculty_fetch_and_answer env d (pyLower d) q) ∧
    (∀ (env : SyllabusEnv) (d : String) (s : Option Int),
      d ∉ validDepartmentsSyllabus →
      syllabus_tool env d s = (syllabusDeptErrorMsg, false)) := by
  refine ⟨?_, ?_, ?_⟩
  · intro d
    simp only [validDepartmentsSyllabus, validDepartmentsFaculty, List.mem_cons,
      List.not_mem_nil, or_false]
    tauto
  · intro env d q h
    simp [faculty_info_tool, h]
  · intro env d s h
    simp [syllabus_tool, h]

/-- Witness for C8 at the concrete department string `CSE`: its lower-cased
form passes faculty validation, while the syllabus tool rejects it. -/
theorem department_validation_asymmetry_witness :
    pyLower "CSE" ∈ validDepartmentsFaculty ∧
    faculty_info_tool sampleFacEnv "CSE" "q" =
      faculty_fetch_and_answer sampleFacEnv "CSE" (pyLower "CSE") "q" ∧
    "CSE" ∉ validDepartmentsSyllabus ∧
    syllabus_tool sampleSyllabusEnv "CSE" none = (syllabusDeptErrorMsg, false) :=
  ⟨by decide,
   department_validation_asymmetry.2.1 sampleFacEnv "CSE" "q" (by decide),
   by decide,
   department_validation_asymmetry.2.2 sampleSyllabusEnv "CSE" none (by decide)⟩

/- ## Ordinance lookup tool (`ordinance_tool.py`) -/

/-- A Chroma metadata filter dictionary, represented by its top-level
entries.  The tool only tests it for emptiness and passes it through to
the index query. -/
abbrev Filters := List (String × String)

/-- The metadata of one retrieved chunk: `meta.get("source")` yields the
source name or Python `None`, `meta.get("page", "?")` yields the page
number or the `"?"` placeholder. -/
structure ChunkMeta where
  source : Option String
  page : Option Int
deriving DecidableEq, Repr

/-- The first-query slice of a Chroma query result:
`results["documents"][0]` and `results["metadatas"][0]`. -/
structure QueryResult where
  documents : List String
  metadatas : List ChunkMeta
deriving DecidableEq, Repr

/-- The unstructured document index: `collection.query` on a query text,
an `n_results` bound and an optional `where` filter; the call may raise. -/
structure OrdEnv where
  query : String → Nat → Option Filters → Except String QueryResult

/-- The f-string rendering of `meta.get("source")` (Python prints a
missing key as `None`). -/
def displaySource : Option String → String
  | some s => s
  | none => "None"

/-- The f-string rendering of `meta.get("page", "?")`. -/
def displayPage : Option Int → String
  | some n => toString n
  | none => "?"

/-- One formatted chunk: the `Source: <name> (Page <n>)` line followed by
the chunk text. -/
def chunkLine (doc : String) (meta : ChunkMeta) : String :=
  "Source: " ++ displaySource meta.source ++ " (Page " ++ displayPage meta.page ++
    ")\n" ++ doc

/-- The tool's result string: the formatted chunks joined pairwise from
`zip(docs, metas)` with blank-line separation, in rank order. -/
def formatChunks (r : QueryResult) : String :=
  String.intercalate "\n\n" (List.zipWith chunkLine r.documents r.metadatas)

/-- Embedding of `ordinance_tool` (`ordinance_tool.py` lines 8-68): a
truthy (non-empty) filter dictionary requests 5 results constrained by
`where=filters`, an empty one requests 3 results unconstrained; the
result chunks are then formatted.  The index query has no surrounding
`try/except`, so its failure propagates monadically. -/
def ordinance_tool (env : OrdEnv) (query : String) (filters : Filters) :
    Except String String :=
  match (if !filters.isEmpty then env.query query 5 (some filters)
         else env.query query 3 none) with
  | .error e => .error e
  | .ok results => .ok (formatChunks results)

/-- A call to `ordinance_tool` through its Python signature, where an
omitted argument falls back to the function's shared default dict.  The
body never writes to `filters` (it is only truthiness-tested, and passed
to the index query when non-empty), so the default object is returned
unchanged for the next call. -/
def ordinance_tool_defaultCall (env : OrdEnv) (defaultFilters : Filters)
    (query : String) (arg : Option Filters) : (Except String String) × Filters :=
  (ordinance_tool env query (arg.getD defaultFilters), defaultFilters)

/-- An index whose query always succeeds with two fixed chunks. -/
def sampleOrdEnv : OrdEnv where
  query := fun _ _ _ => .ok
    { documents := ["chunk one", "chunk two"],
      metadatas := [{ source := some "Ordinance 2024", page := some 3 },
                    { source := none, page := none }] }

/-- An index whose query always raises. -/
def failingOrdEnv : OrdEnv where
  query := fun _ _ _ => .error "vector index failure"

/-- A faculty environment whose summarization call raises. -/
def failingLlmFacEnv : FacEnv where
  readFile := fun _ => .content "faculty data"
  llm := fun _ _ => .error "llm unavailable"

/-- Counterexample to C4 as stated: at a concrete environment whose vector
index raises, `ordinance_tool` propagates the failure as an exception
(`Except.error`) instead of returning a descriptive error string. -/
theorem ordinance_vector_failure_propagates :
    ordinance_tool failingOrdEnv "grading rules" [] = .error "vector index failure" ∧
    (ordinance_tool failingOrdEnv "grading rules" []).isOk = false :=
  ⟨rfl, rfl⟩

/-- C4 amended: the faculty tool catches every upstream failure — it never
returns an exception, and a raising summarization call is converted to the
descriptive error string — but the ordinance tool does NOT catch a vector
index failure: the exception propagates out of the tool function in both
the unfiltered and the filtered branch. -/
theorem upstream_error_handling
    : (∀ (env : FacEnv) (d q : String), ((faculty_info_tool env d q).1).isOk = true) ∧
    (∀ (env : FacEnv) (d q ctx e : String),
      pyLower d ∈ validDepartmentsFaculty →
      env.readFile (facultyDataPath (pyLower d)) = .content ctx →
      env.llm facultySystemPrompt (facultyUserContent ctx q) = .error e →
      (faculty_info_tool env d q).1 =
        .ok ("unknown exception occurred while querying llm to answer the query: " ++ e)) ∧
    (∀ (env : OrdEnv) (q e : String),
      env.query q 3 none = .error e → ordinance_tool env q [] = .error e) ∧
    (∀ (env : OrdEnv) (q e : String) (f : Filters), f ≠ [] →
      env.query q 5 (some f) = .error e → ordinance_tool env q f = .error e) := by
  refine ⟨?_, ?_, ?_, ?_⟩
  · intro env d q
    by_cases h : pyLower d ∈ validDepartmentsFaculty
    · have hbody : faculty_info_tool env d q =
          faculty_fetch_and_answer env d (pyLower d) q := by
        simp [faculty_info_tool, h]
      rw [hbody]
      unfold faculty_fetch_and_answer
      cases hr : env.readFile (facultyDataPath (pyLower d)) with
      | content s =>
        dsimp only
        cases hl : env.llm facultySystemPrompt (facultyUserContent s q) with
        | ok m => rfl
        | error e => rfl
      | fileNotFound => rfl
      | otherExc e => rfl
    · have hval : faculty_info_tool env d q = (.ok facultyDeptErrorMsg, false) := by
        simp [faculty_info_tool, h]
      rw [hval]
      rfl
  · intro env d q ctx e h1 h2 h3
    simp [faculty_info_tool, h1, faculty_fetch_and_answer, h2, h3]
  · intro env q e h
    simp [ordinance_tool, h]
  · intro env q e f hf h
    cases f with
    | nil => exact absurd rfl hf
    | cons a l => simp [ordinance_tool, h]

/-- Witness for the amended C4: with a raising summarizer the faculty tool
returns the descriptive error string (no exception), and with a raising
index the ordinance tool propagates the exception. -/
theorem upstream_error_handling_witness :
    ((faculty_info_tool failingLlmFacEnv "cse" "Who is the HOD?").1).isOk = true ∧
    (faculty_info_tool failingLlmFacEnv "cse" "Who is the HOD?").1 =
      .ok ("unknown exception occurred while querying llm to answer the query: " ++
        "llm unavailable") ∧
    ordinance_tool failingOrdEnv "rules" [] = .error "vector index failure" :=
  ⟨upstream_error_handling.1 failingLlmFacEnv "cse" "Who is the HOD?",
   upstream_error_handling.2.1 failingLlmFacEnv "cse" "Who is the HOD?"
     "faculty data" "llm unavailable" (by decide) rfl rfl,
   upstream_error_handling.2.2.1 failingOrdEnv "rules" "vector index failure" rfl⟩

/-- C7: an empty filter requests exactly 3 results with no metadata
constraint, a non-empty filter requests exactly 5 results constrained by
that filter; the returned string is the retrieved chunks in rank order,
each preceded by its `Source: <name> (Page <n>)` line and separated by
blank lines. -/
theorem ordinance_topk_and_formatting (env : OrdEnv) (q : String) (f : Filters) :
    (f = [] → ordinance_tool env q f = (env.query q 3 none).map formatChunks) ∧
    (f ≠ [] → ordinance_tool env q f = (env.query q 5 (some f)).map formatChunks) ∧
    (∀ (docs : List String) (metas : List ChunkMeta),
      formatChunks ⟨docs, metas⟩ =
        String.intercalate "\n\n" (List.zipWith chunkLine docs metas)) ∧
    (∀ (doc : String) (meta : ChunkMeta),
      chunkLine doc meta =
        "Source: " ++ displaySource meta.source ++ " (Page " ++
          displayPage meta.page ++ ")\n" ++ doc) := by
  refine ⟨?_, ?_, fun _ _ => rfl, fun _ _ => rfl⟩
  · rintro rfl
    unfold ordinance_tool
    cases env.query q 3 none with
    | ok r => rfl
    | error e => rfl
  · intro hf
    cases f with
    | nil => exact absurd rfl hf
    | cons a l =>
      unfold ordinance_tool
      cases env.query q 5 (some (a :: l)) with
      | ok r => rfl
      | error e => rfl

/-- Witness for C7 at a concrete index, with the empty filter and with a
one-clause filter. -/
theorem ordinance_topk_and_formatting_witness :
    ordinance_tool sampleOrdEnv "spi rules" [] =
      (sampleOrdEnv.query "spi rules" 3 none).map formatChunks ∧
    ordinance_tool sampleOrdEnv "spi rules" [("degree", "B.Tech")] =
      (sampleOrdEnv.query "spi rules" 5 (some [("degree", "B.Tech")])).map formatChunks :=
  ⟨(ordinance_topk_and_formatting sampleOrdEnv "spi rules" []).1 rfl,
   (ordinance_topk_and_formatting sampleOrdEnv "spi rules" [("degree", "B.Tech")]).2.1
     (by decide)⟩

/-- C9: against an unchanged store, repeated invocations with identical
arguments return identical results: a second ordinance call made after a
first (through the shared-default calling convention, which threads the
default dict) returns the same result and leaves the default unchanged;
a call using the initial empty default behaves exactly like a call with a
fresh empty filter; and the syllabus tool's result is determined by its
arguments and the store alone. -/
theorem retrieval_tools_idempotent
    (env : OrdEnv) (st : Filters) (q : String) (arg : Option Filters)
    (senv : SyllabusEnv) (d : String) (s : Option Int) :
    (ordinance_tool_defaultCall env
        ((ordinance_tool_defaultCall env st q arg).2) q arg).1 =
      (ordinance_tool_defaultCall env st q arg).1 ∧
    (ordinance_tool_defaultCall env st q arg).2 = st ∧
    (ordinance_tool_defaultCall env [] q none).1 = ordinance_tool env q [] ∧
    syllabus_tool senv d s = syllabus_tool senv d s :=
  ⟨rfl, rfl, rfl, rfl⟩

/-- C10: `_message_to_str` returns the fixed default on a string content
stripping to empty, on a list content whose joined parts strip to empty,
and on a content of any other type (where the source's else branch assigns
`str(msg.content)` to the misspelled variable `respose` and the value is
discarded); hence the faculty tool's summarization result is the default
whenever the model's reply has such content. -/
theorem message_to_str_defaults
    (s : String) (parts : List ContentPart) (r : String)
    (env : FacEnv) (d q ctx : String) :
    (pyStrip s = "" → _message_to_str (.str s) = cannotAnswerDefault) ∧
    (pyStrip (String.join (parts.map contentPartText)) = "" →
      _message_to_str (.list parts) = cannotAnswerDefault) ∧
    _message_to_str (.other r) = cannotAnswerDefault ∧
    (pyLower d ∈ validDepartmentsFaculty →
      env.readFile (facultyDataPath (pyLower d)) = .content ctx →
      env.llm facultySystemPrompt (facultyUserContent ctx q) = .ok (.other r) →
      faculty_info_tool env d q = (.ok cannotAnswerDefault, true)) := by
  refine ⟨?_, ?_, rfl, ?_⟩
  · intro h
    simp [_message_to_str, h]
  · intro h
    simp [_message_to_str, h]
  · intro h1 h2 h3
    simp [faculty_info_tool, h1, faculty_fetch_and_answer, h2, h3, _message_to_str]

/-- An environment whose summarizer replies with a non-string, non-list
content. -/
def otherContentFacEnv : FacEnv where
  readFile := fun _ => .content "ctx"
  llm := fun _ _ => .ok (.other "raw object")

/-- Witness for C10 at concrete contents: whitespace-only string content,
other-typed content, and the faculty tool under an other-typed reply. -/
theorem message_to_str_defaults_witness :
    _message_to_str (.str "   ") = cannotAnswerDefault ∧
    _message_to_str (.other "raw object") = cannotAnswerDefault ∧
    faculty_info_tool otherContentFacEnv "CSE" "office hours" =
      (.ok cannotAnswerDefault, true) :=
  ⟨(message_to_str_defaults "   " [] "raw object" otherContentFacEnv
      "CSE" "office hours" "ctx").1 (by decide),
   (message_to_str_defaults "   " [] "raw object" otherContentFacEnv
      "CSE" "office hours" "ctx").2.2.1,
   (message_to_str_defaults "   " [] "raw object" otherContentFacEnv
      "CSE" "office hours" "ctx").2.2.2 (by decide) rfl rfl⟩

end NITRR
